import Mathlib

/-!
Verification development for the Claude-channel adaptor of the relay
(`nex_cc` package): request conversion between the OpenAI-style chat format
and the Anthropic-style Messages/Completion format, the request-normalization
passes (system-prompt injection, cache-control fixing, sampling-field
filtering) and the stream-event reduction with usage reconciliation.

Go dynamic values (`interface{}` / decoded JSON) are modelled by the
inductive `JVal`; `map[string]interface{}` by association lists with the
Go map operations `glookup` / `gset`.  Machine integers are modelled by
`Nat`/`Int` (no overflow is reachable at the sizes involved), `float64`
fields by `ℚ`.  Fallible Go code (returned `error`s and runtime panics from
unchecked type assertions) is modelled with `Except`.  External
collaborators that are not part of this package (model-default settings,
image fetching, token counting) are passed in as explicit parameters.
-/

namespace NexCC

/-- A decoded JSON value, modelling a Go `interface{}` produced by
`encoding/json` unmarshalling (`nil`, `bool`, `float64`, `string`,
`[]interface{}`, `map[string]interface{}`). -/
inductive JVal where
  | null : JVal
  | bool (b : Bool) : JVal
  | num (q : ℚ) : JVal
  | str (s : String) : JVal
  | arr (xs : List JVal) : JVal
  | obj (m : List (String × JVal)) : JVal

/-- A Go `map[string]interface{}`, modelled as an association list. -/
abbrev GoMap := List (String × JVal)

/-- Go map read `m[k]`: the first binding of `k`, if any. -/
def glookup : GoMap → String → Option JVal
  | [], _ => none
  | (k', v) :: rest, k => if k' = k then some v else glookup rest k

/-- Go map write `m[k] = v`: replace the binding of `k` in place (keys are
unique in a real Go map), appending the binding if the key is absent. -/
def gset : GoMap → String → JVal → GoMap
  | [], k, v => [(k, v)]
  | (k1, v1) :: rest, k, v =>
      if k1 = k then (k, v) :: rest else (k1, v1) :: gset rest k v

/-- All bindings of a map except those of key `k` (used to state that a
rewrite touches only the key `k`). -/
def gremove (m : GoMap) (k : String) : GoMap :=
  m.filter (fun kv => kv.1 ≠ k)

end NexCC

namespace NexCC

/-- The dynamic type of a `dto.Message.Content` value on the OpenAI side
(`nil`, a plain string, or a decoded structured-parts array).
Modelled from the spec: the `dto` package is not part of this source;
§3 gives message content as "text or structured parts". -/
inductive OAIContent where
  | null : OAIContent
  | str (s : String) : OAIContent
  | parts (l : List JVal) : OAIContent

/-- The `dto.ClaudeMediaMessage`: one canonical Claude content block.  Optional
raw-JSON fields (`CacheControl json.RawMessage`) are modelled as
`Option JVal` (`none` for empty bytes, `some v` for bytes that decode to
`v`; raw bytes that are not valid JSON behave, for every operation in this
package, like a decoded non-object value).  `innerContent` models the
`Content any` field of a `tool_result` block, holding the passed-through
OpenAI message content. -/
structure ClaudeMediaMessage where
  type : String
  text : Option String := none
  cacheControl : Option JVal := none
  toolUseId : String := ""
  id : String := ""
  name : String := ""
  input : Option GoMap := none
  sourceType : String := ""
  sourceMediaType : String := ""
  sourceData : String := ""
  innerContent : Option OAIContent := none

/-- The dynamic type of a `dto.ClaudeMessage.Content` (`interface{}`):
a plain string, a typed block array `[]dto.ClaudeMediaMessage`, a decoded
generic array `[]interface{}`, a passed-through OpenAI structured content
value (dynamic type `[]dto.MediaContent`-like, matching none of the type
switches in this package), or `nil`. -/
inductive ClaudeContent where
  | str (s : String) : ClaudeContent
  | media (l : List ClaudeMediaMessage) : ClaudeContent
  | iface (l : List JVal) : ClaudeContent
  | null : ClaudeContent

/-- The `dto.ClaudeMessage`. -/
structure ClaudeMessage where
  role : String
  content : ClaudeContent

/-- The dynamic type of `dto.ClaudeRequest.System` (`interface{}`):
absent (`nil`), a plain string, `[]map[string]interface{}`,
`[]interface{}`, `[]dto.ClaudeMediaMessage`, or any other unexpected
dynamic type. -/
inductive SystemField where
  | absent : SystemField
  | str (s : String) : SystemField
  | mapList (l : List GoMap) : SystemField
  | ifaceList (l : List JVal) : SystemField
  | mediaList (l : List ClaudeMediaMessage) : SystemField
  | other : SystemField

/-- The `dto.Thinking`. -/
structure Thinking where
  type : String
  budgetTokens : Option Int := none
deriving DecidableEq

/-- The `dto.ClaudeToolChoice`. -/
structure ClaudeToolChoice where
  type : String
  name : String := ""
  disableParallelToolUse : Bool := false

/-- The `dto.Tool` (canonical Claude tool shape). -/
structure ClaudeTool where
  name : String
  description : String
  inputSchema : GoMap

/-- The `dto.ClaudeWebSearchUserLocation`. -/
structure ClaudeWebSearchUserLocation where
  type : String
  timezone : String := ""
  country : String := ""
  region : String := ""
  city : String := ""

/-- The `dto.ClaudeWebSearchTool`. -/
structure ClaudeWebSearchTool where
  type : String
  name : String
  maxUses : Nat := 0
  userLocation : Option ClaudeWebSearchUserLocation := none

/-- An element of the heterogeneous `claudeTools` slice (`[]any`). -/
inductive ClaudeToolVal where
  | tool (t : ClaudeTool) : ClaudeToolVal
  | webSearch (w : ClaudeWebSearchTool) : ClaudeToolVal

/-- The `dto.ClaudeRequest` (the fields this package reads or writes). -/
structure ClaudeRequest where
  model : String
  prompt : String := ""
  maxTokens : Nat := 0
  maxTokensToSample : Nat := 0
  stopSequences : Option (List String) := none
  temperature : Option ℚ := none
  topP : ℚ := 0
  topK : Nat := 0
  stream : Bool := false
  system : SystemField := .absent
  messages : List ClaudeMessage := []
  thinking : Option Thinking := none
  toolChoice : Option ClaudeToolChoice := none
  tools : List ClaudeToolVal := []
  metadata : Option GoMap := none

/-! ## Request-normalization passes of the adaptor -/

/-- The mandated system preamble text. -/
def defaultSystemMessage : String :=
  "You are Claude Code, Anthropic's official CLI for Claude."

/-- The preamble system block `map[string]interface{}{"type": "text",
"text": defaultSystemMessage}`. -/
def claudeCodeSystemPrompt : GoMap :=
  [("type", .str "text"), ("text", .str defaultSystemMessage)]

/-- The `"text"` entry of a block map, when it is a string
(the result of the Go `firstMap["text"].(string)` assertion). -/
def mapTextString (m : GoMap) : Option String :=
  match glookup m "text" with
  | some (.str t) => some t
  | _ => none

/-- Canonical-shape copy of a `dto.ClaudeMediaMessage` built by the
system-prompt injector: keys `type`, then `text` when present, then
`cache_control` when the raw marker is non-empty. -/
def mediaToMap (msg : ClaudeMediaMessage) : GoMap :=
  [("type", JVal.str msg.type)]
    ++ (match msg.text with
        | some t => [("text", JVal.str t)]
        | none => [])
    ++ (match msg.cacheControl with
        | some cc => [("cache_control", cc)]
        | none => [])

/-- Keep only the elements of an `[]interface{}` that are
`map[string]interface{}`. -/
def onlyObjMaps (l : List JVal) : List GoMap :=
  l.filterMap (fun item =>
    match item with
    | .obj m => some m
    | _ => none)

/-- The `processClaudeCodeSystemPrompt`: ensure the `System` field starts with
the Claude Code preamble. -/
def processClaudeCodeSystemPrompt : SystemField → SystemField
  | .absent => .mapList [claudeCodeSystemPrompt]
  | .str s =>
      if s = defaultSystemMessage then .str s
      else .mapList [claudeCodeSystemPrompt]
  | .mapList [] => .mapList [claudeCodeSystemPrompt]
  | .mapList (firstMap :: rest) =>
      if mapTextString firstMap = some defaultSystemMessage then
        .mapList (firstMap :: rest)
      else
        .mapList (claudeCodeSystemPrompt :: firstMap :: rest)
  | .ifaceList [] => .mapList [claudeCodeSystemPrompt]
  | .ifaceList (first :: rest) =>
      match first with
      | .obj firstMap =>
          if mapTextString firstMap = some defaultSystemMessage then
            .ifaceList (JVal.obj firstMap :: rest)
          else
            .mapList (claudeCodeSystemPrompt :: onlyObjMaps (JVal.obj firstMap :: rest))
      | _ => .mapList [claudeCodeSystemPrompt]
  | .mediaList [] => .mapList [claudeCodeSystemPrompt]
  | .mediaList (first :: rest) =>
      if first.text.getD "" = defaultSystemMessage then
        .mediaList (first :: rest)
      else
        .mapList (claudeCodeSystemPrompt :: (first :: rest).map mediaToMap)
  | .other => .mapList [claudeCodeSystemPrompt]

/-- The first element's text of a `System` value (for a bare string, the
string itself; for a list, the `text` of its first block). -/
def systemFirstText : SystemField → Option String
  | .str s => some s
  | .mapList (firstMap :: _) => mapTextString firstMap
  | .ifaceList (.obj firstMap :: _) => mapTextString firstMap
  | .mediaList (first :: _) => some (first.text.getD "")
  | _ => none

/-! ## Cache-control fixing -/

/-- The canonical cache-control marker `{"type":"ephemeral","ttl":"1h"}`. -/
def canonicalCacheControl : JVal :=
  .obj [("type", .str "ephemeral"), ("ttl", .str "1h")]

/-- Does a decoded cache-control value need fixing?  True exactly when it
is an object whose `type` is the string `"ephemeral"` and whose `ttl` is
`nil` (absent key, or an explicit JSON `null`). -/
def needsCacheControlFix : Option JVal → Bool
  | some (.obj cc) =>
      (match glookup cc "type" with
       | some (.str t) => t = "ephemeral"
       | _ => false)
      &&
      (match glookup cc "ttl" with
       | none => true
       | some .null => true
       | _ => false)
  | _ => false

/-- One step of `fixCacheControlFormat` on a typed content block. -/
def fixMediaBlock (c : ClaudeMediaMessage) : ClaudeMediaMessage :=
  if needsCacheControlFix c.cacheControl then
    { c with cacheControl := some canonicalCacheControl }
  else c

/-- One step of `fixCacheControlFormat` (and of `fixSystemCacheControl`) on
an `[]interface{}` element. -/
def fixIfaceItem (item : JVal) : JVal :=
  match item with
  | .obj m =>
      if needsCacheControlFix (glookup m "cache_control") then
        .obj (gset m "cache_control" canonicalCacheControl)
      else .obj m
  | x => x

/-- The `fixCacheControlFormat`: rewrite every malformed cache-control marker
inside one message's content to the canonical form. -/
def fixCacheControlFormat (message : ClaudeMessage) : ClaudeMessage :=
  match message.content with
  | .media l => { message with content := .media (l.map fixMediaBlock) }
  | .iface l => { message with content := .iface (l.map fixIfaceItem) }
  | _ => message

/-- The `fixSystemCacheControl`: the same marker rewrite over the `System`
field (only the `[]map[string]interface{}` and `[]interface{}` shapes are
handled by the source). -/
def fixSystemCacheControl : SystemField → SystemField
  | .mapList l =>
      .mapList (l.map (fun m =>
        if needsCacheControlFix (glookup m "cache_control") then
          gset m "cache_control" canonicalCacheControl
        else m))
  | .ifaceList l => .ifaceList (l.map fixIfaceItem)
  | s => s

/-- Replace the last element of a typed block list by `f` applied to it. -/
def mapLastMedia (l : List ClaudeMediaMessage)
    (f : ClaudeMediaMessage → ClaudeMediaMessage) : List ClaudeMediaMessage :=
  match l.getLast? with
  | none => l
  | some last => l.dropLast ++ [f last]

/-- The `addCacheControlToMessage`: attach the prompt-caching marker to the
last content block of one message, unless that block already carries one;
a bare-string content is first promoted to a one-block list. -/
def addCacheControlToMessage (message : ClaudeMessage) : ClaudeMessage :=
  match message.content with
  | .str contentText =>
      { message with content := ClaudeContent.media [
          { type := "text", text := some contentText,
            cacheControl := some canonicalCacheControl }] }
  | .media l =>
      match l.getLast? with
      | none => message
      | some last =>
          if last.cacheControl.isSome then
            { message with content := ClaudeContent.media l }
          else
            { message with content := ClaudeContent.media (
                l.dropLast ++ [{ last with cacheControl := some canonicalCacheControl }]) }
  | .iface l =>
      match l.getLast? with
      | none => message
      | some last =>
          match last with
          | .obj m =>
              if (glookup m "cache_control").isSome then
                { message with content := ClaudeContent.iface l }
              else
                { message with content := ClaudeContent.iface (
                    l.dropLast ++ [JVal.obj (gset m "cache_control" canonicalCacheControl)]) }
          | _ => { message with content := ClaudeContent.iface l }
  | .null => message

/-- The backwards scan of `addCacheControl`: walk the reversed message
list and mark the first `user`-role message found. -/
def addToFirstUserRev : List ClaudeMessage → List ClaudeMessage
  | [] => []
  | m :: rest =>
      if m.role = "user" then addCacheControlToMessage m :: rest
      else m :: addToFirstUserRev rest

/-- The `addCacheControl` on a `[]dto.ClaudeMessage` value: fix every
message's markers, then attach the prompt-caching marker to the last
`user`-role message. -/
def addCacheControl (messages : List ClaudeMessage) : List ClaudeMessage :=
  if messages.isEmpty then messages
  else
    (addToFirstUserRev ((messages.map fixCacheControlFormat).reverse)).reverse

/-- The `filterRequestFields`: unconditionally flatten the sampling fields. -/
def filterRequestFields (request : ClaudeRequest) : ClaudeRequest :=
  { request with topK := 0, topP := 0, temperature := none }

/-- The `addMetadataIfMissing`: set generated metadata when none is present.
The generated `user_id` map comes from a random source outside this model
and is passed in. -/
def addMetadataIfMissing (generated : GoMap) (request : ClaudeRequest) : ClaudeRequest :=
  match request.metadata with
  | some _ => request
  | none => { request with metadata := some generated }

/-- The `ConvertClaudeRequest`: the pass-through Claude-request conversion
(system-prompt injection, system cache-control fix, field filtering,
message cache-control pass, metadata). -/
def ConvertClaudeRequest (generatedMetadata : GoMap) (request : ClaudeRequest) : ClaudeRequest :=
  let r1 := { request with system := processClaudeCodeSystemPrompt request.system }
  let r2 := { r1 with system := fixSystemCacheControl r1.system }
  let r3 := filterRequestFields r2
  let r4 := { r3 with messages := addCacheControl r3.messages }
  addMetadataIfMissing generatedMetadata r4

end NexCC

namespace NexCC

/-! ## The OpenAI-side request model and its `dto` helpers

The `dto` package is not part of this source; its helper methods used by
the converter (`IsStringContent`, `StringContent`, `ParseContent`,
`ParseToolCalls`, `GetMaxTokens`, `GetImageMedia`) are modelled from the
spec (§3: message content is "text or structured parts"; §4.4: content is
decomposed into typed `text` / `image` parts). -/

/-- One parsed content part (the result of `dto.Message.ParseContent`).
Modelled from the spec: a part is a typed `text` or image part. -/
structure MediaPart where
  type : String
  text : String := ""
  url : String := ""

/-- Modelled from the spec: `dto.Message.IsStringContent` — the content's
dynamic type is a plain string. -/
def isStringContent : OAIContent → Bool
  | .str _ => true
  | _ => false

/-- Interpret one decoded JSON part as a typed part.  Modelled from the
spec: parts carry `type` (`text` with a `text` field, `image_url` with a
nested `image_url.url`). -/
def parseContentPart (v : JVal) : Option MediaPart :=
  match v with
  | .obj m =>
      match glookup m "type" with
      | some (.str "text") =>
          some { type := "text",
                 text := match glookup m "text" with
                         | some (.str t) => t
                         | _ => "" }
      | some (.str "image_url") =>
          some { type := "image_url",
                 url := match glookup m "image_url" with
                        | some (.obj im) =>
                            (match glookup im "url" with
                             | some (.str u) => u
                             | _ => "")
                        | _ => "" }
      | _ => none
  | _ => none

/-- Modelled from the spec: `dto.Message.ParseContent`. -/
def parseContent : OAIContent → List MediaPart
  | .null => []
  | .str s => [{ type := "text", text := s }]
  | .parts l => l.filterMap parseContentPart

/-- The concatenated text of the `text` parts. -/
def concatTextParts (parts : List MediaPart) : String :=
  parts.foldl (fun acc p => if p.type = "text" then acc ++ p.text else acc) ""

/-- Modelled from the spec: `dto.Message.StringContent` — the string
itself for string content, else the concatenated text parts. -/
def stringContent : OAIContent → String
  | .str s => s
  | c => concatTextParts (parseContent c)

/-- One OpenAI tool call carried by an assistant message.  The JSON
`arguments` string is abstracted by its parse result: `argumentsObj` is
`some m` exactly when the string decodes to the JSON object `m` (Go
`json.Unmarshal` into `map[string]any` succeeds). -/
structure OAIToolCall where
  id : String := ""
  name : String := ""
  argumentsObj : Option GoMap := none

/-- The `dto.Message` (the fields the converter reads). -/
structure OAIMessage where
  role : String
  content : OAIContent := .null
  toolCallId : String := ""
  toolCalls : Option (List OAIToolCall) := none

/-- The `Function` sub-object of an old-format tool definition. -/
structure OAIFunction where
  name : String := ""
  description : String := ""
  parameters : JVal := .null

/-- A caller tool definition: either new-format (`name` / `description` /
`input_schema` at top level, `function` absent) or old-format (wrapped in
`function`). -/
structure OAITool where
  name : String := ""
  description : String := ""
  inputSchema : GoMap := []
  function : Option OAIFunction := none

/-- The `dto.WebSearchOptions` (the fields the converter reads); the
`user_location` raw JSON is modelled by its decoded value. -/
structure WebSearchOptions where
  searchContextSize : String := ""
  userLocation : Option JVal := none

/-- The `openrouter.RequestReasoning`, modelled from the spec: "an explicit
reasoning object with a positive max-token budget" (§4.4 step 5c). -/
structure ReasoningObj where
  maxTokens : Int := 0

/-- The `dto.GeneralOpenAIRequest` (the fields the converter reads).
`maxTokens` is the caller-supplied max-token value (`GetMaxTokens`). -/
structure GeneralOpenAIRequest where
  model : String
  messages : List OAIMessage := []
  maxTokens : Nat := 0
  temperature : Option ℚ := none
  topP : ℚ := 0
  topK : Nat := 0
  stream : Bool := false
  stop : Option JVal := none
  tools : List OAITool := []
  toolChoice : Option JVal := none
  parallelToolCalls : Option Bool := none
  reasoningEffort : String := ""
  reasoning : Option ReasoningObj := none
  webSearchOptions : Option WebSearchOptions := none

/-- The spec's 80% thinking-budget percentage, as a reduced rational
(built directly from numerator and denominator so that it evaluates by
kernel reduction). -/
def pct80 : ℚ := ⟨4, 5, by norm_num, by norm_num⟩

/-- Modelled from the spec (§6, model-default settings collaborator):
the process-wide Claude settings read by the converter.  The budget
percentage is a `float64` in Go, modelled as an exact rational. -/
structure ClaudeSettings where
  thinkingAdapterEnabled : Bool := false
  thinkingAdapterBudgetTokensPercentage : ℚ := pct80
  defaultMaxTokens : String → Nat := fun _ => 4096
  preserveThinkingSuffix : String → Bool := fun _ => false

/-- A conversion failure: a returned Go `error`, or a runtime panic from
an unchecked type assertion in the source. -/
inductive ConvErr where
  | goError (msg : String) : ConvErr
  | goPanic (msg : String) : ConvErr
deriving DecidableEq

/-- The conversion context: settings plus the external image-resolution
collaborators (§6: `fetch(url)` and `decodeEmbedded(dataUri)`). -/
structure ConvCtx where
  settings : ClaudeSettings
  fetchImageBase64 : String → Except String (String × String)
  decodeBase64Image : String → Except String (String × String)

/-- Go `int(float64(n) * q)` on an exact rational `q`: truncation toward
zero of `n * q`, computed on the numerator and denominator (for a reduced
rational these agree exactly; the Go `float64` rounding is not modelled). -/
def goTruncMulPct (n : Nat) (q : ℚ) : Int :=
  ((n : Int) * q.num).tdiv (q.den : Int)

/-- Go `strings.Trim(s, "\"")`: strip leading and trailing quote
characters. -/
def trimQuoteChars (s : String) : String :=
  String.mk (((s.toList.dropWhile (fun c => c = '"')).reverse.dropWhile
    (fun c => c = '"')).reverse)

/-- Go `strings.HasSuffix`, computed on the character lists (for a
matching suffix this agrees with the byte-level Go semantics). -/
def strEndsWith (s pat : String) : Bool :=
  pat.data.isSuffixOf s.data

/-- Go `strings.HasPrefix`, computed on the character lists. -/
def strStartsWith (s pat : String) : Bool :=
  pat.data.isPrefixOf s.data

/-- Go `strings.TrimSuffix`. -/
def goTrimSuffix (s pat : String) : String :=
  if strEndsWith s pat then String.mk (s.data.take (s.data.length - pat.data.length)) else s

/-- The prompt-concatenation loop of `RequestOpenAI2ClaudeComplete`. -/
def completePrompt : List OAIMessage → String → String
  | [], prompt => prompt
  | message :: rest, prompt =>
      if message.role = "user" then
        completePrompt rest (prompt ++ "\n\nHuman: " ++ stringContent message.content)
      else if message.role = "assistant" then
        completePrompt rest (prompt ++ "\n\nAssistant: " ++ stringContent message.content)
      else if message.role = "system" then
        completePrompt rest (if prompt = "" then stringContent message.content else prompt)
      else
        completePrompt rest prompt

/-- The `RequestOpenAI2ClaudeComplete`: the legacy completion-mode conversion.
`MaxTokensToSample` starts at its zero value, so it is always set to 4096. -/
def RequestOpenAI2ClaudeComplete (textRequest : GeneralOpenAIRequest) : ClaudeRequest :=
  let claudeRequest : ClaudeRequest := {
    model := textRequest.model,
    prompt := "",
    stopSequences := none,
    temperature := textRequest.temperature,
    topP := textRequest.topP,
    topK := textRequest.topK,
    stream := textRequest.stream,
    maxTokensToSample := 4096 }
  let claudeRequest :=
    { claudeRequest with prompt := completePrompt textRequest.messages "" ++ "\n\nAssistant:" }
  filterRequestFields claudeRequest

/-! ## Message-mode conversion (`RequestOpenAI2ClaudeMessage`) -/

def WebSearchMaxUsesLow : Nat := 1

def WebSearchMaxUsesMedium : Nat := 5

def WebSearchMaxUsesHigh : Nat := 10

/-- The `stopReasonClaude2OpenAI`. -/
def stopReasonClaude2OpenAI (reason : String) : String :=
  if reason = "stop_sequence" then "stop"
  else if reason = "end_turn" then "stop"
  else if reason = "max_tokens" then "length"
  else if reason = "tool_use" then "tool_calls"
  else reason

/-- Map one caller tool definition to the canonical Claude shape
(`none` means the tool is skipped).  Unknown extra schema keys are kept;
Go iterates the parameter map in unspecified order, modelled here as the
binding order.  A `type` entry that is neither absent, `null` nor a string
hits the unchecked `params["type"].(string)` assertion. -/
def mapOAITool (tool : OAITool) : Except ConvErr (Option ClaudeTool) :=
  match tool.function with
  | none =>
      .ok (some { name := tool.name, description := tool.description,
                  inputSchema := tool.inputSchema })
  | some fn =>
      match fn.parameters with
      | .obj params =>
          let restSchema : GoMap :=
            [("properties", (glookup params "properties").getD .null),
             ("required", (glookup params "required").getD .null)]
            ++ params.filter (fun kv =>
                 kv.1 ≠ "type" && kv.1 ≠ "properties" && kv.1 ≠ "required")
          match glookup params "type" with
          | some (.str s) =>
              .ok (some { name := fn.name, description := fn.description,
                          inputSchema := ("type", JVal.str s) :: restSchema })
          | some .null =>
              .ok (some { name := fn.name, description := fn.description,
                          inputSchema := restSchema })
          | none =>
              .ok (some { name := fn.name, description := fn.description,
                          inputSchema := restSchema })
          | some _ =>
              .error (.goPanic "interface conversion: schema type is not a string")
      | _ => .ok none

/-- The tool-mapping loop. -/
def mapTools : List OAITool → Except ConvErr (List ClaudeTool)
  | [] => .ok []
  | tool :: rest => do
      let mapped ← mapOAITool tool
      let others ← mapTools rest
      match mapped with
      | some claudeTool => .ok (claudeTool :: others)
      | none => .ok others

/-- A string field of a decoded JSON object (empty when absent or not a
string; the source only copies non-empty strings, and an empty copy is
indistinguishable from the default). -/
def strFieldOf (m : GoMap) (k : String) : String :=
  match glookup m k with
  | some (.str s) => s
  | _ => ""

/-- Decode the caller's `user_location` into the Claude approximate
user-location shape. -/
def buildWebSearchUserLocation (v : JVal) : ClaudeWebSearchUserLocation :=
  match v with
  | .obj m =>
      match glookup m "approximate" with
      | some (.obj approximateData) =>
          { type := "approximate",
            timezone := strFieldOf approximateData "timezone",
            country := strFieldOf approximateData "country",
            region := strFieldOf approximateData "region",
            city := strFieldOf approximateData "city" }
      | _ => { type := "approximate" }
  | _ => { type := "approximate" }

/-- The synthetic web-search tool derived from `web_search_options`. -/
def webSearchToolList (ws : Option WebSearchOptions) : List ClaudeToolVal :=
  match ws with
  | none => []
  | some w =>
      let maxUses :=
        if w.searchContextSize = "low" then WebSearchMaxUsesLow
        else if w.searchContextSize = "medium" then WebSearchMaxUsesMedium
        else if w.searchContextSize = "high" then WebSearchMaxUsesHigh
        else 0
      [ .webSearch { type := "web_search_20250305", name := "web_search",
                     maxUses := maxUses,
                     userLocation := w.userLocation.map buildWebSearchUserLocation } ]

/-- The `mapToolChoice`. -/
def mapToolChoice (toolChoice : Option JVal) (parallelToolCalls : Option Bool) :
    Option ClaudeToolChoice :=
  let base : Option ClaudeToolChoice :=
    match toolChoice with
    | some (.str s) =>
        if s = "auto" then some { type := "auto" }
        else if s = "required" then some { type := "any" }
        else if s = "none" then some { type := "none" }
        else none
    | some (.obj m) =>
        match glookup m "function" with
        | some (.obj fn) =>
            match glookup fn "name" with
            | some (.str toolName) => some { type := "tool", name := toolName }
            | _ => none
        | _ => none
    | _ => none
  match parallelToolCalls with
  | none => base
  | some b =>
      let choice := base.getD { type := "auto" }
      some { choice with disableParallelToolUse := !b }

/-- The `tool_choice` / `parallel_tool_calls` step of the converter: the
mapped choice is assigned only when the caller supplied either field and
the mapping is non-nil. -/
def applyToolChoiceStep (toolChoice : Option JVal) (parallelToolCalls : Option Bool)
    (cr : ClaudeRequest) : ClaudeRequest :=
  if toolChoice.isSome || parallelToolCalls.isSome then
    match mapToolChoice toolChoice parallelToolCalls with
    | some claudeToolChoice => { cr with toolChoice := some claudeToolChoice }
    | none => cr
  else cr

/-- The max-token resolution of the message-mode converter: use the caller
value if nonzero, else the per-model default; a resolved value of exactly
4096 is overridden to 16384. -/
def resolveMaxTokens (caller dflt : Nat) : Nat :=
  let resolved := if caller = 0 then dflt else caller
  if resolved = 4096 then 16384 else resolved

/-- The `-thinking` model-suffix branch of the converter. -/
def applyThinkingSuffix (settings : ClaudeSettings) (textModel : String)
    (cr : ClaudeRequest) : ClaudeRequest :=
  if settings.thinkingAdapterEnabled && strEndsWith textModel "-thinking" then
    let mt := if cr.maxTokens < 1280 then 1280 else cr.maxTokens
    let budget : Int :=
      goTruncMulPct mt settings.thinkingAdapterBudgetTokensPercentage
    { cr with
      maxTokens := mt,
      thinking := some { type := "enabled", budgetTokens := some budget },
      topP := 0,
      temperature := some 1,
      model := if settings.preserveThinkingSuffix textModel then cr.model
               else goTrimSuffix textModel "-thinking" }
  else cr

/-- The `reasoning_effort` branch of the converter. -/
def applyReasoningEffort (reasoningEffort : String) (cr : ClaudeRequest) : ClaudeRequest :=
  if reasoningEffort = "low" then
    { cr with thinking := some { type := "enabled", budgetTokens := some 1280 } }
  else if reasoningEffort = "medium" then
    { cr with thinking := some { type := "enabled", budgetTokens := some 2048 } }
  else if reasoningEffort = "high" then
    { cr with thinking := some { type := "enabled", budgetTokens := some 4096 } }
  else cr

/-- The explicit `reasoning` override branch of the converter. -/
def applyReasoningOverride (reasoning : Option ReasoningObj) (cr : ClaudeRequest) : ClaudeRequest :=
  match reasoning with
  | none => cr
  | some r =>
      if r.maxTokens > 0 then
        { cr with thinking := some { type := "enabled", budgetTokens := some r.maxTokens } }
      else cr

/-- The element loop of the `[]interface{}` stop case: each element is
forced to a string by the unchecked assertion `stop.(string)`. -/
def stopElemsToStrings : List JVal → Except ConvErr (List String)
  | [] => .ok []
  | v :: rest =>
      match v with
      | .str s => do
          let others ← stopElemsToStrings rest
          .ok (s :: others)
      | _ => .error (.goPanic "interface conversion: interface is not string")

/-- The `stop` field conversion of the message-mode converter: a single
string becomes a one-element list; a `[]interface{}` is converted
element-wise (panicking on a non-string element); any other dynamic type
leaves `StopSequences` nil. -/
def convertStop : Option JVal → Except ConvErr (Option (List String))
  | some (.str s) => .ok (some [s])
  | some (.arr xs) => do
      let l ← stopElemsToStrings xs
      .ok (some l)
  | _ => .ok none

/-- The message-normalization loop (`formatMessages`): adjacent same-role
non-tool messages with string contents are merged (joined with a space and
quote-trimmed), and nil content is replaced by the `"..."` placeholder.
The Go source also overwrites an empty role with `"user"` in the request
slice, but builds the formatted message from the unmodified iteration
copy, so an empty role stays empty here. -/
def formatMessagesStep : List OAIMessage → List OAIMessage → OAIMessage → List OAIMessage
  | [], acc, _ => acc
  | message :: rest, acc, lastMessage =>
      let fmt0 : OAIMessage := {
        role := message.role,
        content := message.content,
        toolCallId := if message.role = "tool" then message.toolCallId else "",
        toolCalls := if message.role = "assistant" && message.toolCalls.isSome
                     then message.toolCalls else none }
      let mergeNow := (lastMessage.role == message.role) && (lastMessage.role != "tool")
          && isStringContent lastMessage.content && isStringContent message.content
      let acc1 := if mergeNow then acc.dropLast else acc
      let fmt1 := if mergeNow then
          { fmt0 with content := OAIContent.str (trimQuoteChars
              (stringContent lastMessage.content ++ " " ++ stringContent message.content)) }
        else fmt0
      let fmt2 := match fmt1.content with
        | .null => { fmt1 with content := OAIContent.str "..." }
        | _ => fmt1
      formatMessagesStep rest (acc1 ++ [fmt2]) fmt2

/-- The `formatMessages` with its initial `lastMessage = {Role: "tool"}`. -/
def formatOpenAIMessages (messages : List OAIMessage) : List OAIMessage :=
  formatMessagesStep messages [] { role := "tool" }

/-- The synthetic `"..."` user message prepended when the first non-system
message is not user-authored. -/
def placeholderUserMessage : ClaudeMessage :=
  { role := "user", content := .media [{ type := "text", text := some "..." }] }

/-- The `tool_result` block built from a tool-role message. -/
def toolResultBlock (message : OAIMessage) : ClaudeMediaMessage :=
  { type := "tool_result", toolUseId := message.toolCallId,
    innerContent := some message.content }

/-- User/assistant content passes through as the same dynamic value:
a string stays a string, a decoded parts array stays a generic
`[]interface{}`. -/
def passThroughContent : OAIContent → ClaudeContent
  | .str s => .str s
  | .parts l => .iface l
  | .null => .null

/-- Decompose parsed parts into typed Claude blocks, resolving images
through the external collaborators (a failure there fails the whole
conversion). -/
def buildMediaBlocks (ctx : ConvCtx) : List MediaPart → Except ConvErr (List ClaudeMediaMessage)
  | [] => .ok []
  | part :: rest => do
      let block ←
        if part.type = "text" then
          Except.ok ({ type := "text", text := some part.text } : ClaudeMediaMessage)
        else
          if strStartsWith part.url "http" then
            match ctx.fetchImageBase64 part.url with
            | .error e =>
                Except.error (ConvErr.goError ("get file base64 from url failed: " ++ e))
            | .ok (mimeType, base64Data) =>
                Except.ok ({ type := "image", sourceType := "base64",
                             sourceMediaType := mimeType,
                             sourceData := base64Data } : ClaudeMediaMessage)
          else
            match ctx.decodeBase64Image part.url with
            | .error e => Except.error (ConvErr.goError e)
            | .ok (format, base64String) =>
                Except.ok ({ type := "image", sourceType := "base64",
                             sourceMediaType := "image/" ++ format,
                             sourceData := base64String } : ClaudeMediaMessage)
      let blocks ← buildMediaBlocks ctx rest
      .ok (block :: blocks)

/-- The `tool_use` blocks decoded from assistant tool calls; a call whose
arguments are not a JSON object is dropped. -/
def toolUseBlocks (toolCalls : Option (List OAIToolCall)) : List ClaudeMediaMessage :=
  match toolCalls with
  | none => []
  | some calls =>
      calls.filterMap (fun toolCall =>
        match toolCall.argumentsObj with
        | some inputObj =>
            some { type := "tool_use", id := toolCall.id, name := toolCall.name,
                   input := some inputObj }
        | none => none)

/-- The main message-mapping loop of the converter: system messages are
collected as canonical text blocks; a leading non-user message gets a
placeholder user message prepended; tool-role messages merge into a
preceding user message (or start one); user/assistant content passes
through unchanged; other roles get decomposed content. -/
def buildClaudeMessagesStep (ctx : ConvCtx) :
    List OAIMessage → List ClaudeMessage → List GoMap → Bool →
    Except ConvErr (List ClaudeMessage × List GoMap)
  | [], claudeMessages, systemMessages, _ => .ok (claudeMessages, systemMessages)
  | message :: rest, claudeMessages, systemMessages, isFirstMessage =>
      if message.role = "system" then
        let text := if isStringContent message.content then stringContent message.content
                    else concatTextParts (parseContent message.content)
        buildClaudeMessagesStep ctx rest claudeMessages
          (systemMessages ++ [[("type", JVal.str "text"), ("text", JVal.str text)]])
          isFirstMessage
      else
        let claudeMessages :=
          if isFirstMessage && message.role != "user" then
            claudeMessages ++ [placeholderUserMessage]
          else claudeMessages
        if message.role = "tool" then
          match claudeMessages.getLast? with
          | some lastClaude =>
              if lastClaude.role = "user" then
                let promoted := match lastClaude.content with
                  | .str s => ClaudeContent.media [{ type := "text", text := some s }]
                  | c => c
                match promoted with
                | .media l =>
                    buildClaudeMessagesStep ctx rest
                      (claudeMessages.dropLast ++ [{ lastClaude with
                        content := ClaudeContent.media (l ++ [toolResultBlock message]) }])
                      systemMessages false
                | _ => .error (.goPanic "interface conversion: content is not a media block list")
              else
                buildClaudeMessagesStep ctx rest
                  (claudeMessages ++ [{ role := "user",
                                        content := ClaudeContent.media [toolResultBlock message] }])
                  systemMessages false
          | none =>
              buildClaudeMessagesStep ctx rest
                (claudeMessages ++ [{ role := "user",
                                      content := ClaudeContent.media [toolResultBlock message] }])
                systemMessages false
        else if message.role = "user" || message.role = "assistant" then
          buildClaudeMessagesStep ctx rest
            (claudeMessages ++ [{ role := message.role,
                                  content := passThroughContent message.content }])
            systemMessages false
        else if isStringContent message.content && message.toolCalls.isNone then
          buildClaudeMessagesStep ctx rest
            (claudeMessages ++ [{ role := message.role,
                                  content := ClaudeContent.str (stringContent message.content) }])
            systemMessages false
        else do
          let mediaBlocks ← buildMediaBlocks ctx (parseContent message.content)
          let mediaBlocks := mediaBlocks ++ toolUseBlocks message.toolCalls
          buildClaudeMessagesStep ctx rest
            (claudeMessages ++ [{ role := message.role,
                                  content := ClaudeContent.media mediaBlocks }])
            systemMessages false

/-- The `RequestOpenAI2ClaudeMessage`: the message-mode conversion.  The
field-filtering pass runs last, after the thinking/reasoning resolution. -/
def RequestOpenAI2ClaudeMessage (ctx : ConvCtx) (textRequest : GeneralOpenAIRequest) :
    Except ConvErr ClaudeRequest :=
  match mapTools textRequest.tools with
  | .error e => .error e
  | .ok claudeToolList =>
      let claudeTools := claudeToolList.map ClaudeToolVal.tool
        ++ webSearchToolList textRequest.webSearchOptions
      let cr : ClaudeRequest := {
        model := textRequest.model,
        maxTokens := textRequest.maxTokens,
        stopSequences := none,
        temperature := textRequest.temperature,
        topP := textRequest.topP,
        topK := textRequest.topK,
        stream := textRequest.stream,
        tools := claudeTools }
      let cr := applyToolChoiceStep textRequest.toolChoice textRequest.parallelToolCalls cr
      let cr := { cr with
        maxTokens := resolveMaxTokens cr.maxTokens (ctx.settings.defaultMaxTokens textRequest.model) }
      let cr := applyThinkingSuffix ctx.settings textRequest.model cr
      let cr := applyReasoningEffort textRequest.reasoningEffort cr
      let cr := applyReasoningOverride textRequest.reasoning cr
      match convertStop textRequest.stop with
      | .error e => .error e
      | .ok stops =>
          let cr := { cr with stopSequences := stops }
          match buildClaudeMessagesStep ctx (formatOpenAIMessages textRequest.messages) [] [] true with
          | .error e => .error e
          | .ok (claudeMessages, systemMessages) =>
              let cr := if systemMessages.isEmpty then cr
                        else { cr with system := SystemField.mapList systemMessages }
              let cr := { cr with prompt := "" }
              let cr := { cr with system := processClaudeCodeSystemPrompt cr.system }
              let cr := { cr with messages := addCacheControl claudeMessages }
              .ok (filterRequestFields cr)

end NexCC

namespace NexCC

/-! ## Stream reduction -/

/-- The request-mode constants of the adaptor. -/
def RequestModeCompletion : Nat := 1

/-- Message mode (`RequestModeMessage = 2`). -/
def RequestModeMessage : Nat := 2

/-- The relay output format (`types.RelayFormatClaude` /
`types.RelayFormatOpenAI`). -/
inductive RelayFormat where
  | claude : RelayFormat
  | openai : RelayFormat
deriving DecidableEq

/-- The usage block of an upstream Claude frame or response.  The TTL-split
cache-creation getters (`GetCacheCreation5mTokens` / `GetCacheCreation1hTokens`,
`dto` package, not in this source) are modelled as field reads. -/
structure ClaudeUsage where
  inputTokens : Nat := 0
  outputTokens : Nat := 0
  cacheReadInputTokens : Nat := 0
  cacheCreationInputTokens : Nat := 0
  cacheCreation5mTokens : Nat := 0
  cacheCreation1hTokens : Nat := 0
deriving DecidableEq

/-- A decoded Claude error envelope (`dto.ClaudeError`). -/
structure ClaudeError where
  type : String := ""
  message : String := ""
deriving DecidableEq

/-- The `message` payload of a `message_start` frame. -/
structure StreamMessage where
  id : String := ""
  model : String := ""
  usage : ClaudeUsage := {}
deriving DecidableEq

/-- The `delta` payload of a stream frame (`*ClaudeDelta`, nullable
fields are pointers in Go). -/
structure ClaudeDelta where
  type : String := ""
  text : Option String := none
  partialJson : Option String := none
  thinking : Option String := none
  stopReason : Option String := none
deriving DecidableEq

/-- The `content_block` payload of a `content_block_start` frame. -/
structure ContentBlock where
  type : String := ""
  id : String := ""
  name : String := ""
deriving DecidableEq

/-- A decoded upstream frame / response object (`dto.ClaudeResponse`, the
fields this package reads).  `error` models `GetClaudeError`; modelled
from the spec (§4.7): the decoded provider error envelope, `none` or an
empty `type` when the frame carries no error. -/
structure ClaudeResponse where
  type : String := ""
  model : String := ""
  message : StreamMessage := {}
  contentBlock : Option ContentBlock := none
  delta : Option ClaudeDelta := none
  completion : String := ""
  stopReason : String := ""
  index : Option Int := none
  usage : ClaudeUsage := {}
  error : Option ClaudeError := none
deriving DecidableEq

/-- The `dto.Usage` (the relay-side usage object; the nested
`PromptTokensDetails` fields are flattened). -/
structure Usage where
  promptTokens : Nat := 0
  completionTokens : Nat := 0
  totalTokens : Nat := 0
  cachedTokens : Nat := 0
  cachedCreationTokens : Nat := 0
  claudeCacheCreation5mTokens : Nat := 0
  claudeCacheCreation1hTokens : Nat := 0
deriving DecidableEq

/-- The `ClaudeResponseInfo`: the stream accumulator (response id, creation
time, model, growing text buffer, running usage, completion flag). -/
structure ClaudeResponseInfo where
  responseId : String
  created : Int
  model : String
  responseText : String := ""
  usage : Usage := {}
  done : Bool := false
deriving DecidableEq

/-- The `dto.FunctionResponse`. -/
structure FunctionResponse where
  name : String := ""
  arguments : String := ""
deriving DecidableEq

/-- The `dto.ToolCallResponse`. -/
structure ToolCallResponse where
  index : Option Int := none
  id : String := ""
  type : String := ""
  function : FunctionResponse := {}
deriving DecidableEq

/-- The delta of one OpenAI stream choice. -/
structure ChoiceDelta where
  content : Option String := none
  role : String := ""
  reasoningContent : Option String := none
  toolCalls : List ToolCallResponse := []
deriving DecidableEq

/-- The `dto.ChatCompletionsStreamResponseChoice`. -/
structure StreamChoice where
  delta : ChoiceDelta := {}
  finishReason : Option String := none
deriving DecidableEq

/-- The `dto.ChatCompletionsStreamResponse`. -/
structure ChatCompletionsStreamResponse where
  id : String := ""
  object : String := ""
  created : Int := 0
  model : String := ""
  choices : List StreamChoice := []
deriving DecidableEq

/-- A stream-processing failure: an undecodable frame
(`ErrorCodeBadResponseBody`), a decoded provider error envelope, or a
runtime panic from a nil-pointer dereference in the source. -/
inductive StreamErr where
  | badResponseBody : StreamErr
  | claudeError (e : ClaudeError) : StreamErr
  | goPanic (msg : String) : StreamErr
deriving DecidableEq

/-- One raw textual frame from the event source: either it decodes to a
`ClaudeResponse` or it fails to decode. -/
inductive RawFrame where
  | ok (frame : ClaudeResponse) : RawFrame
  | undecodable : RawFrame
deriving DecidableEq

/-- One output of the stream handlers: an OpenAI-format chunk (the Go
value is a possibly-nil pointer), a passed-through Claude frame, the final
usage chunk (`helper.GenerateFinalUsageResponse`, modelled by its
arguments), or the stream-terminator marker (`helper.Done`). -/
inductive StreamEmit where
  | oaiChunk (chunk : Option ChatCompletionsStreamResponse) : StreamEmit
  | claudeData (frame : ClaudeResponse) : StreamEmit
  | usageChunk (id : String) (created : Int) (model : String) (usage : Usage) : StreamEmit
  | doneMark : StreamEmit
deriving DecidableEq

/-- The `StreamResponseClaude2OpenAI`: map one decoded frame to at most one
OpenAI chunk (`none` models a nil result pointer).  The unchecked pointer
dereferences of the source (`*claudeResponse.Delta.PartialJson`,
`*claudeResponse.Delta.StopReason`) are modelled as panics. -/
def StreamResponseClaude2OpenAI (reqMode : Nat) (claudeResponse : ClaudeResponse) :
    Except StreamErr (Option ChatCompletionsStreamResponse) :=
  let base : ChatCompletionsStreamResponse :=
    { object := "chat.completion.chunk", model := claudeResponse.model }
  let fcIdx : Int :=
    match claudeResponse.index with
    | some i => if i - 1 < 0 then 0 else i - 1
    | none => 0
  if reqMode = RequestModeCompletion then
    let finishReason := stopReasonClaude2OpenAI claudeResponse.stopReason
    let choice : StreamChoice :=
      { delta := { content := some claudeResponse.completion },
        finishReason := if finishReason ≠ "null" then some finishReason else none }
    .ok (some { base with choices := [choice] })
  else if claudeResponse.type = "message_start" then
    let choice : StreamChoice := { delta := { content := some "", role := "assistant" } }
    .ok (some { base with id := claudeResponse.message.id,
                          model := claudeResponse.message.model, choices := [choice] })
  else if claudeResponse.type = "content_block_start" then
    match claudeResponse.contentBlock with
    | some contentBlock =>
        if contentBlock.type = "tool_use" then
          let tools : List ToolCallResponse :=
            [{ index := some fcIdx, id := contentBlock.id, type := "function",
               function := { name := contentBlock.name, arguments := "" } }]
          let choice : StreamChoice := { delta := { content := none, toolCalls := tools } }
          .ok (some { base with choices := [choice] })
        else
          .ok (some { base with choices := [{}] })
    | none => .ok none
  else if claudeResponse.type = "content_block_delta" then
    match claudeResponse.delta with
    | none => .ok (some { base with choices := [{}] })
    | some d =>
        if d.type = "input_json_delta" then
          match d.partialJson with
          | none => .error (.goPanic "invalid memory address: PartialJson is nil")
          | some partialJson =>
              let tools : List ToolCallResponse :=
                [{ index := some fcIdx, type := "function",
                   function := { arguments := partialJson } }]
              let choice : StreamChoice := { delta := { content := none, toolCalls := tools } }
              .ok (some { base with choices := [choice] })
        else if d.type = "signature_delta" then
          let choice : StreamChoice :=
            { delta := { content := d.text, reasoningContent := some "\n" } }
          .ok (some { base with choices := [choice] })
        else if d.type = "thinking_delta" then
          let choice : StreamChoice :=
            { delta := { content := d.text, reasoningContent := d.thinking } }
          .ok (some { base with choices := [choice] })
        else
          let choice : StreamChoice := { delta := { content := d.text } }
          .ok (some { base with choices := [choice] })
  else if claudeResponse.type = "message_delta" then
    match claudeResponse.delta with
    | none => .error (.goPanic "invalid memory address: Delta is nil")
    | some d =>
        match d.stopReason with
        | none => .error (.goPanic "invalid memory address: StopReason is nil")
        | some stopReason =>
            let finishReason := stopReasonClaude2OpenAI stopReason
            let choice : StreamChoice :=
              { finishReason := if finishReason ≠ "null" then some finishReason else none }
            .ok (some { base with choices := [choice] })
  else
    .ok none

/-- The `FormatClaudeResponseInfo`: fold one decoded frame into the
accumulator; the returned `Bool` is `false` exactly when the frame is to
be skipped.  On `true`, the chunk (when non-nil) gets the accumulator's
id, creation time and model. -/
def FormatClaudeResponseInfo (requestMode : Nat) (claudeResponse : ClaudeResponse)
    (oaiResponse : Option ChatCompletionsStreamResponse) (claudeInfo : ClaudeResponseInfo) :
    Except StreamErr (Bool × ClaudeResponseInfo × Option ChatCompletionsStreamResponse) :=
  if requestMode = RequestModeCompletion then
    let ci := { claudeInfo with
      responseText := claudeInfo.responseText ++ claudeResponse.completion }
    .ok (true, ci, oaiResponse.map (fun r =>
      { r with id := ci.responseId, created := ci.created, model := ci.model }))
  else if claudeResponse.type = "message_start" then
    let u := claudeResponse.message.usage
    let ci := { claudeInfo with
      responseId := claudeResponse.message.id,
      model := claudeResponse.message.model,
      usage := { claudeInfo.usage with
        promptTokens := u.inputTokens,
        cachedTokens := u.cacheReadInputTokens,
        cachedCreationTokens := u.cacheCreationInputTokens,
        claudeCacheCreation5mTokens := u.cacheCreation5mTokens,
        claudeCacheCreation1hTokens := u.cacheCreation1hTokens,
        completionTokens := u.outputTokens } }
    .ok (true, ci, oaiResponse.map (fun r =>
      { r with id := ci.responseId, created := ci.created, model := ci.model }))
  else if claudeResponse.type = "content_block_delta" then
    match claudeResponse.delta with
    | none => .error (.goPanic "invalid memory address: Delta is nil")
    | some d =>
        let text := claudeInfo.responseText
        let text := match d.text with
          | some t => text ++ t
          | none => text
        let text := match d.thinking with
          | some t => text ++ t
          | none => text
        let ci := { claudeInfo with responseText := text }
        .ok (true, ci, oaiResponse.map (fun r =>
          { r with id := ci.responseId, created := ci.created, model := ci.model }))
  else if claudeResponse.type = "message_delta" then
    let u := claudeResponse.usage
    let promptTokens := if u.inputTokens > 0 then u.inputTokens
                        else claudeInfo.usage.promptTokens
    let ci := { claudeInfo with
      usage := { claudeInfo.usage with
        promptTokens := promptTokens,
        completionTokens := u.outputTokens,
        totalTokens := promptTokens + u.outputTokens },
      done := true }
    .ok (true, ci, oaiResponse.map (fun r =>
      { r with id := ci.responseId, created := ci.created, model := ci.model }))
  else if claudeResponse.type = "content_block_start" then
    .ok (true, claudeInfo, oaiResponse.map (fun r =>
      { r with id := claudeInfo.responseId, created := claudeInfo.created,
               model := claudeInfo.model }))
  else
    .ok (false, claudeInfo, oaiResponse)

/-- The per-request relay state threaded through the stream handlers:
`info.UpstreamModelName` (mutated by a Claude-format `message_start`) and
the accumulator. -/
structure RelayState where
  upstreamModelName : String
  claudeInfo : ClaudeResponseInfo
deriving DecidableEq

/-- The body of `HandleStreamResponseData` after the frame decoded without
a provider error envelope. -/
def handleDecodedFrame (relayFormat : RelayFormat) (requestMode : Nat)
    (st : RelayState) (claudeResponse : ClaudeResponse) :
    Except StreamErr (RelayState × List StreamEmit) :=
  match relayFormat with
  | .claude => do
      let (_, ci, _) ← FormatClaudeResponseInfo requestMode claudeResponse none st.claudeInfo
      let st := { st with claudeInfo := ci }
      let st :=
        if requestMode ≠ RequestModeCompletion && claudeResponse.type = "message_start" then
          { st with upstreamModelName := claudeResponse.message.model }
        else st
      .ok (st, [.claudeData claudeResponse])
  | .openai => do
      let response ← StreamResponseClaude2OpenAI requestMode claudeResponse
      let (keep, ci, response) ←
        FormatClaudeResponseInfo requestMode claudeResponse response st.claudeInfo
      if keep then
        .ok ({ st with claudeInfo := ci }, [.oaiChunk response])
      else
        .ok ({ st with claudeInfo := ci }, [])

/-- The `HandleStreamResponseData`: decode one raw frame, abort on a decode
failure or a provider error envelope, else fold it. -/
def HandleStreamResponseData (relayFormat : RelayFormat) (requestMode : Nat)
    (st : RelayState) (data : RawFrame) :
    Except StreamErr (RelayState × List StreamEmit) :=
  match data with
  | .undecodable => .error .badResponseBody
  | .ok claudeResponse =>
      match claudeResponse.error with
      | some claudeError =>
          if claudeError.type ≠ "" then .error (.claudeError claudeError)
          else handleDecodedFrame relayFormat requestMode st claudeResponse
      | none => handleDecodedFrame relayFormat requestMode st claudeResponse

/-- The environment of the final-response step: relay format, whether the
caller asked for stream usage, the relay's own prompt-token count, and the
external token counter (§6, `count(text, modelName)`). -/
structure StreamEnv where
  relayFormat : RelayFormat
  shouldIncludeUsage : Bool
  promptTokens : Nat
  countTextTokens : String → String → Nat

/-- Modelled from the spec (§4.6): `service.ResponseText2Usage` recomputes
usage from the accumulated text with the external token counter, seeded
with the known prompt-token count. -/
def ResponseText2Usage (countTextTokens : String → String → Nat)
    (responseText modelName : String) (promptTokens : Nat) : Usage :=
  let completionTokens := countTextTokens responseText modelName
  { promptTokens := promptTokens, completionTokens := completionTokens,
    totalTokens := promptTokens + completionTokens }

/-- The `HandleStreamFinalResponse`: reconcile usage (always recomputed in
completion mode; in message mode only when the running completion-token
count is zero or the completion flag never became true), then emit the
final usage chunk (when requested) and the terminator. -/
def HandleStreamFinalResponse (env : StreamEnv) (requestMode : Nat) (st : RelayState) :
    ClaudeResponseInfo × List StreamEmit :=
  let ci := st.claudeInfo
  let ci :=
    if requestMode = RequestModeCompletion then
      { ci with usage := ResponseText2Usage env.countTextTokens ci.responseText st.upstreamModelName env.promptTokens }
    else
      if ci.usage.completionTokens = 0 || !ci.done then
        { ci with usage := ResponseText2Usage env.countTextTokens ci.responseText st.upstreamModelName ci.usage.promptTokens }
      else ci
  match env.relayFormat with
  | .claude => (ci, [])
  | .openai =>
      let emits :=
        (if env.shouldIncludeUsage then
          [StreamEmit.usageChunk ci.responseId ci.created st.upstreamModelName ci.usage]
         else [])
        ++ [StreamEmit.doneMark]
      (ci, emits)

/-- The frame loop of `ClaudeStreamHandler`: frames are handled strictly
in order; the first error stops the loop (already-flushed output stays). -/
def runStreamLoop (relayFormat : RelayFormat) (requestMode : Nat) :
    List RawFrame → RelayState → List StreamEmit →
    List StreamEmit × Except StreamErr RelayState
  | [], st, emits => (emits, .ok st)
  | f :: fs, st, emits =>
      match HandleStreamResponseData relayFormat requestMode st f with
      | .error e => (emits, .error e)
      | .ok (st2, es) => runStreamLoop relayFormat requestMode fs st2 (emits ++ es)

/-- The `ClaudeStreamHandler`: initialize the accumulator, loop over the
frames, and on success run the final-response step.  On an error the
final step is skipped and no further output is emitted. -/
def ClaudeStreamHandler (env : StreamEnv) (requestMode : Nat)
    (responseId : String) (created : Int) (upstreamModelName : String)
    (frames : List RawFrame) :
    List StreamEmit × Except StreamErr ClaudeResponseInfo :=
  let st0 : RelayState :=
    { upstreamModelName := upstreamModelName,
      claudeInfo := { responseId := responseId, created := created,
                      model := upstreamModelName } }
  match runStreamLoop env.relayFormat requestMode frames st0 [] with
  | (emits, .error e) => (emits, .error e)
  | (emits, .ok st) =>
      let (ci, femits) := HandleStreamFinalResponse env requestMode st
      (emits ++ femits, .ok ci)

end NexCC

namespace NexCC

/-! ## Observation functions and concrete instances used by the claims -/

/-- The cache-control marker of one `[]interface{}` content element
(`none` when the element is not a map or has no marker). -/
def ifaceMarker (item : JVal) : Option JVal :=
  match item with
  | .obj m => glookup m "cache_control"
  | _ => none

/-- An `[]interface{}` content element with its marker binding removed. -/
def stripIfaceItem (item : JVal) : JVal :=
  match item with
  | .obj m => .obj (gremove m "cache_control")
  | x => x

/-- The cache-control markers of a message's content blocks, in order. -/
def blockMarkers (message : ClaudeMessage) : List (Option JVal) :=
  match message.content with
  | .media l => l.map (fun b => b.cacheControl)
  | .iface l => l.map ifaceMarker
  | _ => []

/-- A content value with every cache-control marker removed (everything
but the markers). -/
def stripContentMarkers : ClaudeContent → ClaudeContent
  | .media l => .media (l.map (fun b => { b with cacheControl := none }))
  | .iface l => .iface (l.map stripIfaceItem)
  | x => x

/-- Does the message's last content block already carry a cache-control
marker? -/
def lastBlockHasMarker (message : ClaudeMessage) : Bool :=
  match message.content with
  | .media l =>
      match l.getLast? with
      | some b => b.cacheControl.isSome
      | none => false
  | .iface l =>
      match l.getLast? with
      | some (.obj m) => (glookup m "cache_control").isSome
      | _ => false
  | _ => false

/-- A conversion context with the thinking adapter enabled at the spec's
80% budget percentage. -/
def ctxThinking : ConvCtx := {
  settings := { thinkingAdapterEnabled := true,
                thinkingAdapterBudgetTokensPercentage := pct80,
                defaultMaxTokens := fun _ => 8192,
                preserveThinkingSuffix := fun _ => false },
  fetchImageBase64 := fun _ => .error "unavailable",
  decodeBase64Image := fun _ => .error "unavailable" }

/-- A `"x-thinking"` request with `max_tokens = 1000` and one user
message. -/
def reqThinking : GeneralOpenAIRequest := {
  model := "x-thinking",
  messages := [{ role := "user", content := .str "hi" }],
  maxTokens := 1000 }

/-- A conversion context with default settings (thinking adapter off). -/
def ctxPlain : ConvCtx := {
  settings := {},
  fetchImageBase64 := fun _ => .error "unavailable",
  decodeBase64Image := fun _ => .error "unavailable" }

/-- A minimal one-user-message request. -/
def reqPlain : GeneralOpenAIRequest := {
  model := "claude-3",
  messages := [{ role := "user", content := .str "hi" }] }

/-- The `reqPlain` with a `stop` list containing a non-string element. -/
def reqStopBad : GeneralOpenAIRequest := {
  model := "claude-3",
  messages := [{ role := "user", content := .str "hi" }],
  stop := some (.arr [.str "a", .num 3]) }

/-- The converted request for `reqPlain` (the conversion succeeds, so this
is its `.ok` payload). -/
def convOutPlain : ClaudeRequest :=
  (RequestOpenAI2ClaudeMessage ctxPlain reqPlain).toOption.getD { model := "" }

/-- A stream environment: OpenAI relay format, usage requested. -/
def envStreamC4 : StreamEnv :=
  { relayFormat := .openai, shouldIncludeUsage := true,
    promptTokens := 0, countTextTokens := fun _ _ => 0 }

/-- The frame sequence of the streaming scenario: `message_start`, two
text deltas, `message_delta(stop_reason="end_turn")`, `message_stop`. -/
def framesC4 : List RawFrame := [
  .ok { type := "message_start",
        message := { id := "msg_1", model := "claude-test",
                     usage := { inputTokens := 7 } } },
  .ok { type := "content_block_delta", delta := some { type := "text_delta", text := some "a" } },
  .ok { type := "content_block_delta", delta := some { type := "text_delta", text := some "b" } },
  .ok { type := "message_delta", delta := some { stopReason := some "end_turn" },
        usage := { outputTokens := 2 } },
  .ok { type := "message_stop" } ]

/-- The full streaming run of the scenario. -/
def streamOutcomeC4 : List StreamEmit × Except StreamErr ClaudeResponseInfo :=
  ClaudeStreamHandler envStreamC4 RequestModeMessage "resp_0" 123 "claude-test" framesC4

/-- Classification of one stream emission. -/
inductive EmitKind where
  | nonTerminalChunk : EmitKind
  | terminalChunk : EmitKind
  | nullChunk : EmitKind
  | claudePass : EmitKind
  | usage : EmitKind
  | done : EmitKind
deriving DecidableEq

/-- Classify an emission: an OpenAI chunk is non-terminal when no choice
carries a finish reason. -/
def emitKind (e : StreamEmit) : EmitKind :=
  match e with
  | .oaiChunk (some c) =>
      if c.choices.all (fun ch => ch.finishReason.isNone) then .nonTerminalChunk
      else .terminalChunk
  | .oaiChunk none => .nullChunk
  | .claudeData _ => .claudePass
  | .usageChunk _ _ _ _ => .usage
  | .doneMark => .done

/-- An initial relay state for single-frame experiments. -/
def stStream0 : RelayState :=
  { upstreamModelName := "claude-test",
    claudeInfo := { responseId := "resp_0", created := 1, model := "claude-test" } }

/-- A decodable frame carrying a provider error envelope. -/
def errorFrame : ClaudeResponse :=
  { type := "error",
    error := some { type := "overloaded_error", message := "upstream overloaded" } }

/-- A decodable frame with an event type outside the known set and no
error envelope. -/
def pingFrame : ClaudeResponse := { type := "ping" }

/-- A stream environment for the usage-reconciliation witness. -/
def envStreamC8 : StreamEnv :=
  { relayFormat := .openai, shouldIncludeUsage := true,
    promptTokens := 0, countTextTokens := fun _ _ => 7 }

/-- A relay state whose accumulator never saw `message_delta`
(`done = false`), with a known prompt-token count. -/
def stStreamC8 : RelayState :=
  { upstreamModelName := "claude-test",
    claudeInfo := { responseId := "resp_0", created := 5, model := "claude-test",
                    responseText := "ab", usage := { promptTokens := 3 },
                    done := false } }

/-- A user message whose single content block already carries the
canonical marker. -/
def msgMarked : ClaudeMessage :=
  { role := "user",
    content := .media [{ type := "text", text := some "x",
                         cacheControl := some canonicalCacheControl }] }

end NexCC

namespace NexCC

/-! ## Theorems -/

theorem glookup_gset_self (m : GoMap) (k : String) (v : JVal) :
    glookup (gset m k v) k = some v := by
  induction m with
  | nil => simp [gset, glookup]
  | cons kv rest ih =>
    obtain ⟨k1, v1⟩ := kv
    by_cases h1 : k1 = k
    · subst h1; simp [gset, glookup]
    · simp [gset, glookup, h1, ih]

theorem gremove_gset (m : GoMap) (k : String) (v : JVal) :
    gremove (gset m k v) k = gremove m k := by
  induction m with
  | nil => simp [gset, gremove]
  | cons kv rest ih =>
    obtain ⟨k1, v1⟩ := kv
    by_cases h1 : k1 = k
    · subst h1; simp [gset, gremove]
    · simpa [gset, gremove, h1] using ih

/-- C3: for every accepted `system` shape, after the injector runs the
first element's text equals the mandated preamble, and the injector is
idempotent. -/
theorem C3_injector_first_text_and_idempotent (s : SystemField) :
    systemFirstText (processClaudeCodeSystemPrompt s) = some defaultSystemMessage
    ∧ processClaudeCodeSystemPrompt (processClaudeCodeSystemPrompt s)
        = processClaudeCodeSystemPrompt s := by
  have hp : mapTextString claudeCodeSystemPrompt = some defaultSystemMessage := by decide
  cases s with
  | absent =>
      refine ⟨?_, ?_⟩
      · simp [processClaudeCodeSystemPrompt, systemFirstText, hp]
      · simp [processClaudeCodeSystemPrompt, hp]
  | str s0 =>
      by_cases hs : s0 = defaultSystemMessage
      · subst hs
        refine ⟨?_, ?_⟩
        · simp [processClaudeCodeSystemPrompt, systemFirstText]
        · simp [processClaudeCodeSystemPrompt]
      · refine ⟨?_, ?_⟩
        · simp [processClaudeCodeSystemPrompt, hs, systemFirstText, hp]
        · simp [processClaudeCodeSystemPrompt, hs, hp]
  | mapList l =>
      cases l with
      | nil =>
          refine ⟨?_, ?_⟩
          · simp [processClaudeCodeSystemPrompt, systemFirstText, hp]
          · simp [processClaudeCodeSystemPrompt, hp]
      | cons firstMap rest =>
          by_cases hc : mapTextString firstMap = some defaultSystemMessage
          · refine ⟨?_, ?_⟩
            · simp [processClaudeCodeSystemPrompt, hc, systemFirstText]
            · simp [processClaudeCodeSystemPrompt, hc]
          · refine ⟨?_, ?_⟩
            · simp [processClaudeCodeSystemPrompt, hc, systemFirstText, hp]
            · simp [processClaudeCodeSystemPrompt, hc, hp]
  | ifaceList l =>
      cases l with
      | nil =>
          refine ⟨?_, ?_⟩
          · simp [processClaudeCodeSystemPrompt, systemFirstText, hp]
          · simp [processClaudeCodeSystemPrompt, hp]
      | cons first rest =>
          cases first with
          | obj m =>
              by_cases hc : mapTextString m = some defaultSystemMessage
              · refine ⟨?_, ?_⟩
                · simp [processClaudeCodeSystemPrompt, hc, systemFirstText]
                · simp [processClaudeCodeSystemPrompt, hc]
              · refine ⟨?_, ?_⟩
                · simp [processClaudeCodeSystemPrompt, hc, systemFirstText, hp]
                · simp [processClaudeCodeSystemPrompt, hc, hp]
          | null =>
              refine ⟨?_, ?_⟩
              · simp [processClaudeCodeSystemPrompt, systemFirstText, hp]
              · simp [processClaudeCodeSystemPrompt, hp]
          | bool b =>
              refine ⟨?_, ?_⟩
              · simp [processClaudeCodeSystemPrompt, systemFirstText, hp]
              · simp [processClaudeCodeSystemPrompt, hp]
          | num q =>
              refine ⟨?_, ?_⟩
              · simp [processClaudeCodeSystemPrompt, systemFirstText, hp]
              · simp [processClaudeCodeSystemPrompt, hp]
          | str s1 =>
              refine ⟨?_, ?_⟩
              · simp [processClaudeCodeSystemPrompt, systemFirstText, hp]
              · simp [processClaudeCodeSystemPrompt, hp]
          | arr xs =>
              refine ⟨?_, ?_⟩
              · simp [processClaudeCodeSystemPrompt, systemFirstText, hp]
              · simp [processClaudeCodeSystemPrompt, hp]
  | mediaList l =>
      cases l with
      | nil =>
          refine ⟨?_, ?_⟩
          · simp [processClaudeCodeSystemPrompt, systemFirstText, hp]
          · simp [processClaudeCodeSystemPrompt, hp]
      | cons first rest =>
          by_cases hc : first.text.getD "" = defaultSystemMessage
          · refine ⟨?_, ?_⟩
            · simp [processClaudeCodeSystemPrompt, hc, systemFirstText]
            · simp [processClaudeCodeSystemPrompt, hc]
          · refine ⟨?_, ?_⟩
            · simp [processClaudeCodeSystemPrompt, hc, systemFirstText, hp]
            · simp [processClaudeCodeSystemPrompt, hc, hp]
  | other =>
      refine ⟨?_, ?_⟩
      · simp [processClaudeCodeSystemPrompt, systemFirstText, hp]
      · simp [processClaudeCodeSystemPrompt, hp]

/-- C2 counterexample: a supplied `system` string that differs from the
preamble is replaced wholesale by the preamble-only list; the supplied
text `"hello"` appears nowhere in the result, so supplied system content
is discarded, contradicting the claim. -/
theorem C2_counterexample_string_system_discarded :
    processClaudeCodeSystemPrompt (.str "hello") = .mapList [claudeCodeSystemPrompt]
    ∧ mapTextString claudeCodeSystemPrompt ≠ some "hello" := by
  refine ⟨rfl, by decide⟩

/-- C2 (amended): when the supplied `system` is a list whose first
element is a mapping (or a typed media list) with text differing from the
preamble, the injector prepends the preamble and preserves the rest
(converting each element's shape; an untyped list keeps only its
mapping-shaped elements); a plain string differing from the preamble is
replaced by the preamble-only list, discarding the string. -/
theorem C2_injector_prepend_and_preserve :
    (∀ (firstMap : GoMap) (rest : List GoMap),
        mapTextString firstMap ≠ some defaultSystemMessage →
        processClaudeCodeSystemPrompt (.mapList (firstMap :: rest))
          = .mapList (claudeCodeSystemPrompt :: firstMap :: rest))
    ∧ (∀ (firstMap : GoMap) (rest : List JVal),
        mapTextString firstMap ≠ some defaultSystemMessage →
        processClaudeCodeSystemPrompt (.ifaceList (.obj firstMap :: rest))
          = .mapList (claudeCodeSystemPrompt :: onlyObjMaps (JVal.obj firstMap :: rest)))
    ∧ (∀ (first : ClaudeMediaMessage) (rest : List ClaudeMediaMessage),
        first.text.getD "" ≠ defaultSystemMessage →
        processClaudeCodeSystemPrompt (.mediaList (first :: rest))
          = .mapList (claudeCodeSystemPrompt :: (first :: rest).map mediaToMap))
    ∧ (∀ s : String, s ≠ defaultSystemMessage →
        processClaudeCodeSystemPrompt (.str s) = .mapList [claudeCodeSystemPrompt]) := by
  refine ⟨?_, ?_, ?_, ?_⟩
  · intro firstMap rest hc
    simp [processClaudeCodeSystemPrompt, hc]
  · intro firstMap rest hc
    simp [processClaudeCodeSystemPrompt, hc]
  · intro first rest hc
    simp [processClaudeCodeSystemPrompt, hc]
  · intro s hs
    simp [processClaudeCodeSystemPrompt, hs]

/-- Witness for the amended C2 at concrete inputs of each shape. -/
theorem C2_injector_prepend_and_preserve_witness :
    processClaudeCodeSystemPrompt (.mapList [[("text", JVal.str "hi")]])
      = .mapList [claudeCodeSystemPrompt, [("text", JVal.str "hi")]]
    ∧ processClaudeCodeSystemPrompt (.ifaceList [JVal.obj [("text", JVal.str "hi")], JVal.str "x"])
      = .mapList [claudeCodeSystemPrompt, [("text", JVal.str "hi")]]
    ∧ processClaudeCodeSystemPrompt (.mediaList [{ type := "text", text := some "hi" }])
      = .mapList [claudeCodeSystemPrompt, [("type", JVal.str "text"), ("text", JVal.str "hi")]]
    ∧ processClaudeCodeSystemPrompt (.str "hi") = .mapList [claudeCodeSystemPrompt] := by
  refine ⟨C2_injector_prepend_and_preserve.1 _ _ (by decide),
          C2_injector_prepend_and_preserve.2.1 _ _ (by decide),
          C2_injector_prepend_and_preserve.2.2.1 _ _ (by decide),
          C2_injector_prepend_and_preserve.2.2.2 _ (by decide)⟩

/-- C1 counterexample: for `model = "x-thinking"`, thinking enabled and
`max_tokens = 1000`, the final converted request's temperature is `nil`,
not the thinking resolver's pinned `1.0` — the unconditional
field-filtering pass clobbers it. -/
theorem C1_counterexample_temperature_cleared :
    (RequestOpenAI2ClaudeMessage ctxThinking reqThinking).toOption.map ClaudeRequest.temperature
      = some none
    ∧ (RequestOpenAI2ClaudeMessage ctxThinking reqThinking).toOption.map ClaudeRequest.temperature
      ≠ some (some 1) := by
  have h1 : (RequestOpenAI2ClaudeMessage ctxThinking reqThinking).toOption.map
      ClaudeRequest.temperature = some none := rfl
  exact ⟨h1, by rw [h1]; simp⟩

/-- C1 (amended): the same request resolves `max_tokens` to 1280 with a
thinking budget of 1024 (80% of 1280) and a cleared `top_p`, but the
pinned temperature does not survive: the final filtering pass resets it
to `nil`. -/
theorem C1_thinking_request_resolved :
    (RequestOpenAI2ClaudeMessage ctxThinking reqThinking).toOption.map
        (fun r => (r.maxTokens, r.thinking, r.topP, r.temperature))
      = some (1280, some { type := "enabled", budgetTokens := some 1024 },
              (0 : ℚ), (none : Option ℚ)) := by decide

/-- C5: a `stop` list element that is not a string hits the unchecked
type assertion `stop.(string)` and the conversion panics (it does not
fail with an `InvalidStopSequence` error); a single string becomes a
one-element list and an all-string list is taken as-is. -/
theorem C5_stop_list_nonstring_panics :
    convertStop (some (.arr [.str "a", .num 3]))
      = .error (.goPanic "interface conversion: interface is not string")
    ∧ convertStop (some (.str "a")) = .ok (some ["a"])
    ∧ convertStop (some (.arr [.str "a", .str "b"])) = .ok (some ["a", "b"])
    ∧ RequestOpenAI2ClaudeMessage ctxPlain reqStopBad
      = .error (.goPanic "interface conversion: interface is not string") := by
  refine ⟨rfl, rfl, rfl, rfl⟩

end NexCC

namespace NexCC

/-- C4: reducing the frame sequence `[message_start, delta "a", delta "b",
message_delta(end_turn), message_stop]` in message mode with the OpenAI
relay format emits exactly three non-terminal chunks (then one
finish-reason chunk), followed by the final usage chunk and the
terminator, and the accumulator's completion flag is true at
finalization. -/
theorem C4_stream_sequence_chunks :
    streamOutcomeC4.1.map emitKind
      = [.nonTerminalChunk, .nonTerminalChunk, .nonTerminalChunk, .terminalChunk, .usage, .done]
    ∧ (streamOutcomeC4.1.filter (fun e => emitKind e == EmitKind.nonTerminalChunk)).length = 3
    ∧ streamOutcomeC4.2.map ClaudeResponseInfo.done = .ok true := by
  refine ⟨rfl, rfl, rfl⟩

theorem cacheControl_fixMediaBlock (b : ClaudeMediaMessage) :
    (fixMediaBlock b).cacheControl
      = if needsCacheControlFix b.cacheControl then some canonicalCacheControl
        else b.cacheControl := by
  unfold fixMediaBlock
  by_cases h : needsCacheControlFix b.cacheControl <;> simp [h]

theorem strip_fixMediaBlock (b : ClaudeMediaMessage) :
    ({ fixMediaBlock b with cacheControl := none } : ClaudeMediaMessage)
      = { b with cacheControl := none } := by
  unfold fixMediaBlock
  split <;> rfl

theorem ifaceMarker_fixIfaceItem (item : JVal) :
    ifaceMarker (fixIfaceItem item)
      = if needsCacheControlFix (ifaceMarker item) then some canonicalCacheControl
        else ifaceMarker item := by
  cases item with
  | obj m =>
      by_cases h : needsCacheControlFix (glookup m "cache_control")
      · simp [fixIfaceItem, ifaceMarker, h, glookup_gset_self]
      · simp [fixIfaceItem, ifaceMarker, h]
  | null => simp [fixIfaceItem, ifaceMarker, needsCacheControlFix]
  | bool b => simp [fixIfaceItem, ifaceMarker, needsCacheControlFix]
  | num q => simp [fixIfaceItem, ifaceMarker, needsCacheControlFix]
  | str s => simp [fixIfaceItem, ifaceMarker, needsCacheControlFix]
  | arr xs => simp [fixIfaceItem, ifaceMarker, needsCacheControlFix]

theorem stripIfaceItem_fixIfaceItem (item : JVal) :
    stripIfaceItem (fixIfaceItem item) = stripIfaceItem item := by
  cases item with
  | obj m =>
      by_cases h : needsCacheControlFix (glookup m "cache_control")
      · simp [fixIfaceItem, stripIfaceItem, h, gremove_gset]
      · simp [fixIfaceItem, stripIfaceItem, h]
  | null => rfl
  | bool b => rfl
  | num q => rfl
  | str s => rfl
  | arr xs => rfl

/-- C6: the fixer rewrites exactly the markers that decode to ephemeral
with a missing `ttl` — and only those — into the canonical form, touching
nothing else (so the reverse rewrite never happens); the attach pass never
overwrites a marker already present on the last block; and attaching is
idempotent, so re-running adds no second marker. -/
theorem C6_cache_control_fixer (message : ClaudeMessage) :
    needsCacheControlFix (some canonicalCacheControl) = false
    ∧ (fixCacheControlFormat message).role = message.role
    ∧ blockMarkers (fixCacheControlFormat message)
        = (blockMarkers message).map (fun marker =>
            if needsCacheControlFix marker then some canonicalCacheControl else marker)
    ∧ stripContentMarkers (fixCacheControlFormat message).content
        = stripContentMarkers message.content
    ∧ (lastBlockHasMarker message = true → addCacheControlToMessage message = message)
    ∧ addCacheControlToMessage (addCacheControlToMessage message)
        = addCacheControlToMessage message := by
  obtain ⟨role, content⟩ := message
  refine ⟨by decide, ?_, ?_, ?_, ?_, ?_⟩
  · cases content <;> rfl
  · cases content with
    | str s => simp [fixCacheControlFormat, blockMarkers]
    | null => simp [fixCacheControlFormat, blockMarkers]
    | media l =>
        simp [fixCacheControlFormat, blockMarkers, List.map_map, Function.comp,
              cacheControl_fixMediaBlock]
    | iface l =>
        simp [fixCacheControlFormat, blockMarkers, List.map_map, Function.comp,
              ifaceMarker_fixIfaceItem]
  · cases content with
    | str s => rfl
    | null => rfl
    | media l =>
        simp [fixCacheControlFormat, stripContentMarkers, List.map_map, Function.comp,
              strip_fixMediaBlock]
    | iface l =>
        simp [fixCacheControlFormat, stripContentMarkers, List.map_map, Function.comp,
              stripIfaceItem_fixIfaceItem]
  · intro h
    cases content with
    | str s => simp [lastBlockHasMarker] at h
    | null => simp [lastBlockHasMarker] at h
    | media l =>
        cases hl : l.getLast? with
        | none => simp [lastBlockHasMarker, hl] at h
        | some b =>
            simp only [lastBlockHasMarker, hl] at h
            simp [addCacheControlToMessage, hl, h]
    | iface l =>
        cases hl : l.getLast? with
        | none => simp [lastBlockHasMarker, hl] at h
        | some item =>
            cases item with
            | obj m =>
                simp only [lastBlockHasMarker, hl] at h
                simp [addCacheControlToMessage, hl, h]
            | null => simp [lastBlockHasMarker, hl] at h
            | bool b => simp [lastBlockHasMarker, hl] at h
            | num q => simp [lastBlockHasMarker, hl] at h
            | str s => simp [lastBlockHasMarker, hl] at h
            | arr xs => simp [lastBlockHasMarker, hl] at h
  · cases content with
    | str s => rfl
    | null => rfl
    | media l =>
        cases hl : l.getLast? with
        | none => simp [addCacheControlToMessage, hl]
        | some b =>
            by_cases hm : b.cacheControl.isSome
            · simp [addCacheControlToMessage, hl, hm]
            · simp [addCacheControlToMessage, hl, hm, List.getLast?_concat]
    | iface l =>
        cases hl : l.getLast? with
        | none => simp [addCacheControlToMessage, hl]
        | some item =>
            cases item with
            | obj m =>
                by_cases hm : (glookup m "cache_control").isSome
                · simp [addCacheControlToMessage, hl, hm]
                · simp [addCacheControlToMessage, hl, hm, List.getLast?_concat,
                        glookup_gset_self]
            | null => simp [addCacheControlToMessage, hl]
            | bool b => simp [addCacheControlToMessage, hl]
            | num q => simp [addCacheControlToMessage, hl]
            | str s => simp [addCacheControlToMessage, hl]
            | arr xs => simp [addCacheControlToMessage, hl]

/-- Witness for C6's no-overwrite conjunct at a concrete marked message. -/
theorem C6_cache_control_fixer_witness :
    addCacheControlToMessage msgMarked = msgMarked :=
  (C6_cache_control_fixer msgMarked).2.2.2.2.1 (by decide)

end NexCC

namespace NexCC

theorem maxTokens_applyToolChoiceStep (tc : Option JVal) (ptc : Option Bool)
    (cr : ClaudeRequest) : (applyToolChoiceStep tc ptc cr).maxTokens = cr.maxTokens := by
  unfold applyToolChoiceStep
  split
  · split <;> rfl
  · rfl

theorem maxTokens_applyReasoningEffort (effort : String) (cr : ClaudeRequest) :
    (applyReasoningEffort effort cr).maxTokens = cr.maxTokens := by
  unfold applyReasoningEffort
  split_ifs <;> rfl

theorem maxTokens_applyReasoningOverride (reasoning : Option ReasoningObj)
    (cr : ClaudeRequest) : (applyReasoningOverride reasoning cr).maxTokens = cr.maxTokens := by
  cases reasoning with
  | none => rfl
  | some r =>
      unfold applyReasoningOverride
      by_cases h : r.maxTokens > 0 <;> simp [h]

theorem applyThinkingSuffix_not_taken {settings : ClaudeSettings} {textModel : String}
    (h : (settings.thinkingAdapterEnabled && strEndsWith textModel "-thinking") = false)
    (cr : ClaudeRequest) : applyThinkingSuffix settings textModel cr = cr := by
  unfold applyThinkingSuffix
  simp [h]

/-- C7: with no caller max tokens the resolved value is the per-model
default unless that default is 4096 (then 16384); a nonzero caller value
is used as-is unless it is 4096 (then 16384); and when the thinking
suffix branch is not taken, the converted request carries exactly this
resolved value. -/
theorem C7_max_tokens_resolution :
    (∀ dflt : Nat, resolveMaxTokens 0 dflt = if dflt = 4096 then 16384 else dflt)
    ∧ (∀ caller dflt : Nat, caller ≠ 0 →
        resolveMaxTokens caller dflt = if caller = 4096 then 16384 else caller)
    ∧ (∀ (ctx : ConvCtx) (textRequest : GeneralOpenAIRequest) (out : ClaudeRequest),
        RequestOpenAI2ClaudeMessage ctx textRequest = .ok out →
        (ctx.settings.thinkingAdapterEnabled && strEndsWith textRequest.model "-thinking") = false →
        out.maxTokens = resolveMaxTokens textRequest.maxTokens
          (ctx.settings.defaultMaxTokens textRequest.model)) := by
  refine ⟨?_, ?_, ?_⟩
  · intro dflt
    simp [resolveMaxTokens]
  · intro caller dflt hc
    simp [resolveMaxTokens, hc]
  · intro ctx textRequest out h hthink
    unfold RequestOpenAI2ClaudeMessage at h
    cases hm : mapTools textRequest.tools with
    | error e => rw [hm] at h; simp at h
    | ok claudeToolList =>
      rw [hm] at h
      cases hs : convertStop textRequest.stop with
      | error e => rw [hs] at h; simp at h
      | ok stops =>
        rw [hs] at h
        cases hb : buildClaudeMessagesStep ctx (formatOpenAIMessages textRequest.messages) [] [] true with
        | error e => rw [hb] at h; simp at h
        | ok pair =>
          rw [hb] at h
          obtain ⟨claudeMessages, systemMessages⟩ := pair
          simp only [Except.ok.injEq] at h
          subst h
          simp [filterRequestFields, apply_ite, maxTokens_applyToolChoiceStep,
                maxTokens_applyReasoningEffort, maxTokens_applyReasoningOverride,
                applyThinkingSuffix_not_taken hthink]

/-- Witness for C7: the default path (4096 bumped to 16384), the nonzero
caller path, and the converted request of a plain request. -/
theorem C7_max_tokens_resolution_witness :
    resolveMaxTokens 0 4096 = 16384
    ∧ resolveMaxTokens 1000 4096 = 1000
    ∧ convOutPlain.maxTokens = resolveMaxTokens reqPlain.maxTokens
        (ctxPlain.settings.defaultMaxTokens reqPlain.model) :=
  ⟨C7_max_tokens_resolution.1 4096,
   C7_max_tokens_resolution.2.1 1000 4096 (by decide),
   C7_max_tokens_resolution.2.2 ctxPlain reqPlain convOutPlain rfl rfl⟩

/-- C8: at stream finalization in message mode the usage is recomputed
from the accumulated text (seeded with the known prompt-token count) if
and only if the running completion-token count is zero or the completion
flag never became true; otherwise the upstream-reported usage is kept
unchanged. -/
theorem C8_usage_reconciliation (env : StreamEnv) (st : RelayState) :
    (st.claudeInfo.usage.completionTokens = 0 ∨ st.claudeInfo.done = false →
      (HandleStreamFinalResponse env RequestModeMessage st).1.usage
        = ResponseText2Usage env.countTextTokens st.claudeInfo.responseText
            st.upstreamModelName st.claudeInfo.usage.promptTokens)
    ∧ (st.claudeInfo.usage.completionTokens ≠ 0 → st.claudeInfo.done = true →
      (HandleStreamFinalResponse env RequestModeMessage st).1 = st.claudeInfo) := by
  obtain ⟨rf, siu, pt, ctt⟩ := env
  constructor
  · intro hcond
    have hb : (st.claudeInfo.usage.completionTokens = 0 || !st.claudeInfo.done) = true := by
      rcases hcond with hcomp | hdone
      · simp [hcomp]
      · simp [hdone]
    cases rf <;>
      simp [HandleStreamFinalResponse, RequestModeMessage, RequestModeCompletion, hb]
  · intro hcomp hdone
    have hb : (st.claudeInfo.usage.completionTokens = 0 || !st.claudeInfo.done) = false := by
      simp [hcomp, hdone]
    cases rf <;>
      simp [HandleStreamFinalResponse, RequestModeMessage, RequestModeCompletion, hb]

/-- Witness for C8's recomputation direction: `done` is false, so usage is
recomputed from the accumulated text seeded with the known prompt-token
count. -/
theorem C8_usage_reconciliation_witness :
    (HandleStreamFinalResponse envStreamC8 RequestModeMessage stStreamC8).1.usage
      = ResponseText2Usage envStreamC8.countTextTokens stStreamC8.claudeInfo.responseText
          stStreamC8.upstreamModelName stStreamC8.claudeInfo.usage.promptTokens :=
  (C8_usage_reconciliation envStreamC8 stStreamC8).1 (Or.inr rfl)

/-- C9: all three conversion entry points produce requests with the
sampling fields unconditionally cleared (`top_k = 0`, `top_p = 0`,
`temperature = nil`) — the field-filtering pass is applied after every
other step, so not even the thinking resolver's pinned temperature
survives. -/
theorem C9_sampling_fields_cleared :
    (∀ (generated : GoMap) (request : ClaudeRequest),
        (ConvertClaudeRequest generated request).topK = 0
        ∧ (ConvertClaudeRequest generated request).topP = 0
        ∧ (ConvertClaudeRequest generated request).temperature = none)
    ∧ (∀ textRequest : GeneralOpenAIRequest,
        (RequestOpenAI2ClaudeComplete textRequest).topK = 0
        ∧ (RequestOpenAI2ClaudeComplete textRequest).topP = 0
        ∧ (RequestOpenAI2ClaudeComplete textRequest).temperature = none)
    ∧ (∀ (ctx : ConvCtx) (textRequest : GeneralOpenAIRequest) (out : ClaudeRequest),
        RequestOpenAI2ClaudeMessage ctx textRequest = .ok out →
        out.topK = 0 ∧ out.topP = 0 ∧ out.temperature = none) := by
  refine ⟨?_, ?_, ?_⟩
  · intro generated request
    cases hm : request.metadata with
    | none => simp [ConvertClaudeRequest, addMetadataIfMissing, filterRequestFields, hm]
    | some mm => simp [ConvertClaudeRequest, addMetadataIfMissing, filterRequestFields, hm]
  · intro textRequest
    simp [RequestOpenAI2ClaudeComplete, filterRequestFields]
  · intro ctx textRequest out h
    unfold RequestOpenAI2ClaudeMessage at h
    cases hm : mapTools textRequest.tools with
    | error e => rw [hm] at h; simp at h
    | ok claudeToolList =>
      rw [hm] at h
      cases hs : convertStop textRequest.stop with
      | error e => rw [hs] at h; simp at h
      | ok stops =>
        rw [hs] at h
        cases hb : buildClaudeMessagesStep ctx (formatOpenAIMessages textRequest.messages) [] [] true with
        | error e => rw [hb] at h; simp at h
        | ok pair =>
          rw [hb] at h
          obtain ⟨claudeMessages, systemMessages⟩ := pair
          simp only [Except.ok.injEq] at h
          subst h
          simp [filterRequestFields]

/-- Witness for C9's message-mode conjunct at a plain request. -/
theorem C9_sampling_fields_cleared_witness :
    convOutPlain.topK = 0 ∧ convOutPlain.topP = 0 ∧ convOutPlain.temperature = none :=
  C9_sampling_fields_cleared.2.2 ctxPlain reqPlain convOutPlain rfl

/-- C10 counterexample: a frame that decodes successfully, carries the
event type `"error"` (outside the known set) and a provider error
envelope aborts the stream with an error — it is not silently skipped. -/
theorem C10_counterexample_error_frame_aborts :
    HandleStreamResponseData .openai RequestModeMessage stStream0 (.ok errorFrame)
      = .error (.claudeError { type := "overloaded_error", message := "upstream overloaded" })
    ∧ ("error" ∉ ["message_start", "content_block_start", "content_block_delta",
                  "message_delta", "message_stop"]) :=
  ⟨rfl, by decide⟩

theorem handleDecodedFrame_unknown (st : RelayState) (frame : ClaudeResponse)
    (h1 : frame.type ≠ "message_start")
    (h2 : frame.type ≠ "content_block_start")
    (h3 : frame.type ≠ "content_block_delta")
    (h4 : frame.type ≠ "message_delta")
    (h5 : frame.type ≠ "message_stop") :
    handleDecodedFrame .openai RequestModeMessage st frame = .ok (st, []) := by
  unfold handleDecodedFrame StreamResponseClaude2OpenAI FormatClaudeResponseInfo
  simp [RequestModeMessage, RequestModeCompletion, h1, h2, h3, h4, h5, bind, Except.bind]

/-- C10 (amended): a frame that decodes successfully, carries an event
type outside the known set and no provider error envelope is silently
skipped in message mode: no chunk is emitted, no error is returned and
the state is unchanged.  (Frames that fail to decode — and decoded frames
carrying a provider error envelope — abort the stream.) -/
theorem C10_unknown_frame_skipped (st : RelayState) (frame : ClaudeResponse)
    (htype : frame.type ∉ ["message_start", "content_block_start", "content_block_delta",
                           "message_delta", "message_stop"])
    (herr : frame.error = none ∨ ∃ e, frame.error = some e ∧ e.type = "") :
    HandleStreamResponseData .openai RequestModeMessage st (.ok frame) = .ok (st, []) := by
  simp only [List.mem_cons, List.not_mem_nil, or_false, not_or] at htype
  obtain ⟨h1, h2, h3, h4, h5⟩ := htype
  simp only [HandleStreamResponseData]
  rcases herr with he | ⟨e, he, hetype⟩
  · rw [he]
    exact handleDecodedFrame_unknown st frame h1 h2 h3 h4 h5
  · rw [he]
    simp only [hetype, ne_eq, not_true_eq_false, if_false]
    exact handleDecodedFrame_unknown st frame h1 h2 h3 h4 h5

/-- Witness for the amended C10 at a decodable `"ping"` frame. -/
theorem C10_unknown_frame_skipped_witness :
    HandleStreamResponseData .openai RequestModeMessage stStream0 (.ok pingFrame)
      = .ok (stStream0, []) :=
  C10_unknown_frame_skipped stStream0 pingFrame (by decide) (Or.inl rfl)

end NexCC
